import Mathlib

/-!
Shallow embedding of `emu-radio/common-library/tcp-server.cc` (class `TcpServer`),
a minimal asynchronous TCP request/reply server built on boost::asio.

The embedding models:
  * which event-processing facility (io_service) each asynchronous object is
    bound to, following C++ name resolution in the source (in particular the
    local `io_service` declared inside `start()` at line 51, which shadows the
    member of the same name);
  * the accept completion handler of `TcpServer::accept` (lines 69-80) as the
    list of actions it performs;
  * the signal handler installed by `TcpServer::start` (lines 54-59);
  * the capture lists of the four lambdas in the file (reference-counted
    ownership of socket / buffer / timer / reply across the async chain);
  * `boost::asio::async_read_until` on a stream of arriving chunks, and the
    whole read→handle→write cycle of `TcpServer::processIncomingData`
    (lines 83-128) together with the deadline timer of
    `TcpServer::set_timeout_on_socket` (lines 130-146), as an action trace.

Machine strings are byte lists (`List Nat`); the C++ `long read_timeout` is an
`Int`; `boost::system::error_code` is an inductive with `ok` as the zero value.
-/

set_option autoImplicit false

/-- The two distinct `boost::asio::io_service` objects that exist while
`TcpServer::start` runs: the data member (used by the constructor at line 20
for the acceptor, by `accept` at line 68 for connection sockets, and by
`set_timeout_on_socket` at line 133 for timers) and the local variable
declared inside `start` at line 51. -/
inductive Facility where
  | member
  | localInStart
deriving DecidableEq

/-- Facility the acceptor is bound to: `acceptor (io_service)` in the member
initializer list, line 20, refers to the data member. Accept completions are
scheduled on the facility of the acceptor. -/
def acceptorFacility : Facility := Facility.member

/-- Facility each per-connection socket is created on:
`new boost::asio::ip::tcp::socket (io_service)` at line 68; inside `accept`
the unqualified name `io_service` denotes the data member. Session callbacks
(read/write completions) are scheduled on the facility of their socket. -/
def sessionSocketFacility : Facility := Facility.member

/-- Facility the deadline timers are created on:
`new boost::asio::deadline_timer (io_service)` at line 133 inside
`set_timeout_on_socket`, again the data member. -/
def timerFacility : Facility := Facility.member

/-- Facility the `signal_set` of `start` waits on: `signals (io_service, ...)`
at line 52 names the local `boost::asio::io_service` declared at line 51,
which shadows the data member inside the rest of `start`. -/
def signalFacility : Facility := Facility.localInStart

/-- Facility on which `start` invokes `run ()`: the unqualified `io_service`
at line 61 resolves to the local variable declared at line 51, not to the
data member. -/
def runFacilityOfStart : Facility := Facility.localInStart

/-- Model of `boost::system::error_code`: `ok` is the zero value (the C++ test
`if (ec)` is `¬ (ec = ok)`), `operationAborted` is
`boost::asio::error::operation_aborted`, and `other n` stands for any further
platform error number. -/
inductive ErrorCode where
  | ok
  | operationAborted
  | other (code : Nat)
deriving DecidableEq

/-- The two kinds of actions the accept completion handler can take:
re-arming the next accept (the call `accept ()` at line 71) and handing the
accepted socket to a Connection Session (the call
`processIncomingData (socket)` at line 79). -/
inductive AcceptAction where
  | rearm
  | startSession
deriving DecidableEq

/-- Embedding of the accept completion handler of `TcpServer::accept`,
lines 70-80:
first `accept ()` is called unconditionally (re-arm), then
`if (ec) { if (ec == operation_aborted) return; }` — only the
operation-aborted code returns early — and finally
`processIncomingData (socket)` runs. The result is the list of actions
performed, in order, for a completion with code `ec`. -/
def acceptCallbackActions (ec : ErrorCode) : List AcceptAction :=
  AcceptAction.rearm ::
    (if ec ≠ ErrorCode.ok then
      (if ec = ErrorCode.operationAborted then []
       else [AcceptAction.startSession])
     else [AcceptAction.startSession])

/-- Actions available to the signal handler installed in `TcpServer::start`.
`stopFacility` would be a call to `io_service.stop ()`; it is listed so that
its absence from the handler is expressible. -/
inductive ShutdownAction where
  | logTermination
  | resetFacility (f : Facility)
  | stopFacility (f : Facility)
  | cancelAcceptor
deriving DecidableEq

/-- Embedding of the signal handler lambda of `TcpServer::start`, lines 54-59:
it prints "Gracefully terminating tcp server", calls
`this->io_service.reset ()` (the data member, explicitly qualified) and
`this->acceptor.cancel ()`. It never calls `stop ()` on any facility. -/
def signalHandlerActions : List ShutdownAction :=
  [ShutdownAction.logTermination,
   ShutdownAction.resetFacility Facility.member,
   ShutdownAction.cancelAcceptor]

/-- The member functions of `TcpServer` that are defined in tcp-server.cc:
the constructor, the destructor, `setHandler`, `start`, `accept`,
`processIncomingData` and `set_timeout_on_socket`. There is no `stop`. -/
def definedMemberFunctions : List String :=
  ["TcpServer", "~TcpServer", "setHandler", "start", "accept",
   "processIncomingData", "set_timeout_on_socket"]

/-- The heap/stack resources threaded through one connection session:
the accepted socket, the streambuf, the deadline timer, the reply string
returned by the handler, and the server object itself (`this`). -/
inductive Resource where
  | socketRes
  | bufferRes
  | timerRes
  | replyRes
  | serverRes
deriving DecidableEq

/-- Capture list of the accept completion lambda, line 69: `[this, socket]`. -/
def acceptCallbackCaptures : List Resource :=
  [Resource.serverRes, Resource.socketRes]

/-- Capture list of the read completion lambda passed to
`async_read_until`, line 92: `[this, timer, buffer, socket]`. -/
def readCallbackCaptures : List Resource :=
  [Resource.serverRes, Resource.timerRes, Resource.bufferRes,
   Resource.socketRes]

/-- Capture list of the write completion lambda passed to `async_write`,
line 113: `[this]` only. -/
def writeCallbackCaptures : List Resource :=
  [Resource.serverRes]

/-- Capture list of the timer expiry lambda of `set_timeout_on_socket`,
line 135: `[socket]`. -/
def timerCallbackCaptures : List Resource :=
  [Resource.socketRes]

/-- Resources the buffer argument of the `async_write` call at line 112
points into without owning them: `boost::asio::buffer (reply.c_str (),
reply.size ())` references the bytes of the local `std::string reply`. -/
def asyncWriteBufferRefs : List Resource :=
  [Resource.replyRes]

/-- Whether the accepted socket is still referenced by anything once the read
completion lambda has returned while the reply write is still in flight: the
only continuation that could hold it is the write completion handler, whose
capture list is `writeCallbackCaptures`. -/
def socketHeldAfterReadCallback : Bool :=
  writeCallbackCaptures.contains Resource.socketRes

/-- The request delimiter `"\r\n\r\n"` of the `async_read_until` call at
line 92, as bytes. -/
def delim : List Nat := [13, 10, 13, 10]

/-- Position one past the end of the first occurrence of `delim` in `l`
(what `async_read_until` reports as `bytes_transferred`), or `none` when `l`
does not contain the delimiter. -/
def findDelimEnd : List Nat → Option Nat
  | [] => none
  | a :: rest =>
      if (a :: rest).take 4 = delim then some 4
      else (findDelimEnd rest).map (· + 1)

/-- Number of occurrences of the delimiter in a byte list (used to state
claims that speak of "exactly one occurrence"). -/
def delimOccurrences (l : List Nat) : Nat :=
  (List.range l.length).countP (fun i => decide ((l.drop i).take 4 = delim))

/-- Embedding of `boost::asio::async_read_until (*socket, *buffer, "\r\n\r\n",
...)` at line 92 on a connection delivering `chunks` of bytes: chunks are
appended to the accumulated streambuf contents `acc` one at a time; after
each arrival the whole buffer is searched for the delimiter. On success the
result is the full buffer contents together with `bytes_transferred`, the
position one past the first delimiter occurrence; note the buffer may extend
beyond `bytes_transferred` when the delimiting chunk carried further bytes.
`none` means the delimiter never arrives, so the read never completes. -/
def asyncReadUntil : List (List Nat) → List Nat → Option (List Nat × Nat)
  | [], _ => none
  | c :: cs, acc =>
      let buf := acc ++ c
      match findDelimEnd buf with
      | some n => some (buf, n)
      | none => asyncReadUntil cs buf

/-- Observable steps of one connection session, in program order: arming the
deadline timer (line 88), starting the asynchronous read (line 92), the three
steps of the timer expiry handler (lines 140-142), entry into the read
completion handler, the `timer->cancel ()` call (line 95), the error log and
early return (lines 99-100), the synchronous handler invocation (line 107),
issuing the asynchronous reply write (line 112), and the two write completion
logs (lines 117 and 121). -/
inductive Act where
  | armTimer
  | startRead
  | timerLogTimeout
  | shutdownBoth
  | closeSocket
  | readDone
  | cancelTimer
  | logReadError
  | invokeHandler (bytes : List Nat) (len : Nat)
  | startWrite (bytes : List Nat)
  | logReplySent
  | logReplyError
deriving DecidableEq

/-- Environment of one connection session: the chunks of bytes the peer
sends, whether the deadline elapsed before the read found the delimiter, and
whether the reply write completes without error. -/
structure SessionEnv where
  chunks : List (List Nat)
  timedOut : Bool
  writeOk : Bool
deriving DecidableEq

/-- Embedding of the timer expiry lambda of `set_timeout_on_socket`,
lines 135-144: invoked with the aborted code when the timer was cancelled
first (`cancelledFirst = true`), in which case the `if (!ec)` guard makes it
a no-op; invoked with the zero code when the deadline elapsed, in which case
it logs "Connection timeout!", shuts the socket down in both directions and
closes it. -/
def timerExpiry (cancelledFirst : Bool) : List Act :=
  if cancelledFirst then []
  else [Act.timerLogTimeout, Act.shutdownBoth, Act.closeSocket]

/-- Embedding of the read completion lambda of `processIncomingData`,
lines 92-126. `result` is `none` when the read completed with an error and
`some buf` when it succeeded with streambuf contents `buf`. In order: the
timer is cancelled when `read_timeout > 0` (lines 94-95); on error the
handler logs and returns (lines 97-101); on success the handler is invoked
with the buffer data and `bufferSize = buffer->size ()` (lines 103-107); a
non-empty reply is written asynchronously with exactly `reply.c_str ()` and
`reply.size ()` (line 112), and the write completion logs success or failure
(lines 115-122); an empty reply writes nothing (line 109). -/
def readCallback (read_timeout : Int) (handler : List Nat → Nat → List Nat)
    (result : Option (List Nat)) (writeOk : Bool) : List Act :=
  Act.readDone ::
    ((if read_timeout > 0 then [Act.cancelTimer] else []) ++
     match result with
     | none => [Act.logReadError]
     | some buf =>
         Act.invokeHandler buf buf.length ::
           (if handler buf buf.length = [] then []
            else
              Act.startWrite (handler buf buf.length) ::
                [if writeOk then Act.logReplySent else Act.logReplyError]))

/-- Embedding of one whole connection session driven by
`TcpServer::processIncomingData` (lines 83-128) under environment `env`:
the timer is armed iff `read_timeout > 0` (lines 86-88), then the read is
started (line 92). If a positive timeout is configured and the deadline
elapses before the delimiter arrives, the timer handler fires (shutting down
and closing the socket), after which the in-flight read completes with an
error and takes the error path. Otherwise the read either never completes
(peer never sends the delimiter: the trace ends, the session hangs) or
completes successfully with the accumulated buffer, after which the armed
timer's wait is cancelled and its handler is a no-op. -/
def processIncomingDataTrace (read_timeout : Int)
    (handler : List Nat → Nat → List Nat) (env : SessionEnv) : List Act :=
  (if read_timeout > 0 then [Act.armTimer] else []) ++
    [Act.startRead] ++
    (if read_timeout > 0 ∧ env.timedOut = true then
      timerExpiry false ++ readCallback read_timeout handler none env.writeOk
     else
      match asyncReadUntil env.chunks [] with
      | none => []
      | some (buf, _) =>
          readCallback read_timeout handler (some buf) env.writeOk ++
            (if read_timeout > 0 then timerExpiry true else []))

/-- A handler that replies "OK" (bytes 79, 75) to every request; used to
instantiate universally quantified theorems at a concrete input. -/
def okHandler : List Nat → Nat → List Nat := fun _ _ => [79, 75]

/-- A handler that replies with the empty string to every request. -/
def silentHandler : List Nat → Nat → List Nat := fun _ _ => []

/-- Recognizer for `Act.startWrite` actions. -/
def isStartWriteAct : Act → Bool
  | Act.startWrite _ => true
  | _ => false

/-- Recognizer for `Act.startRead` actions. -/
def isStartReadAct : Act → Bool
  | Act.startRead => true
  | _ => false

/-- Holds when no `startWrite` action occurs before the first `readDone`
action of the trace: the reply write is only ever issued once the read has
completed. -/
def writesAfterReadDone : List Act → Bool
  | [] => true
  | Act.startWrite _ :: _ => false
  | Act.readDone :: _ => true
  | _ :: rest => writesAfterReadDone rest

/-- The timer local variable of `processIncomingData`, lines 86-88: the
shared pointer is set by `set_timeout_on_socket` iff `read_timeout > 0`,
otherwise it stays null (`none`). -/
def sessionTimer (read_timeout : Int) : Option Unit :=
  if read_timeout > 0 then some () else none

/-- The condition guarding the `timer->cancel ()` dereference inside the
read completion lambda, lines 94-95. -/
def readCallbackDerefsTimer (read_timeout : Int) : Bool :=
  decide (read_timeout > 0)

/-! Helper lemmas about delimiter search and the chunked read. -/

theorem findDelimEnd_bounds :
    ∀ (l : List Nat) (n : Nat), findDelimEnd l = some n →
      4 ≤ n ∧ n ≤ l.length ∧ (l.drop (n - 4)).take 4 = delim := by
  intro l
  induction l with
  | nil => intro n hn; simp [findDelimEnd] at hn
  | cons a rest ih =>
      intro n hn
      rw [findDelimEnd] at hn
      by_cases h4 : (a :: rest).take 4 = delim
      · rw [if_pos h4] at hn
        injection hn with hn
        subst hn
        refine ⟨le_refl 4, ?_, by simpa using h4⟩
        have hlen : ((a :: rest).take 4).length = 4 := by rw [h4]; rfl
        rw [List.length_take] at hlen
        omega
      · rw [if_neg h4] at hn
        cases hfr : findDelimEnd rest with
        | none => rw [hfr] at hn; simp at hn
        | some m =>
            rw [hfr] at hn
            simp only [Option.map_some'] at hn
            injection hn with hn
            obtain ⟨h4m, hmlen, hdrop⟩ := ih m hfr
            subst hn
            refine ⟨by omega, by simp [List.length_cons]; omega, ?_⟩
            have hsub : m + 1 - 4 = (m - 4) + 1 := by omega
            rw [hsub]
            simpa using hdrop

theorem asyncReadUntil_findDelim :
    ∀ (cs : List (List Nat)) (acc buf : List Nat) (n : Nat),
      asyncReadUntil cs acc = some (buf, n) → findDelimEnd buf = some n := by
  intro cs
  induction cs with
  | nil => intro acc buf n h; simp [asyncReadUntil] at h
  | cons c rest ih =>
      intro acc buf n h
      rw [asyncReadUntil] at h
      split at h
      · rename_i m heq
        injection h with h
        injection h with h1 h2
        subst h1; subst h2
        exact heq
      · exact ih _ _ _ h

theorem asyncReadUntil_consumes :
    ∀ (cs : List (List Nat)) (acc buf : List Nat) (n : Nat),
      asyncReadUntil cs acc = some (buf, n) →
      ∃ t, buf ++ t = acc ++ cs.flatten := by
  intro cs
  induction cs with
  | nil => intro acc buf n h; simp [asyncReadUntil] at h
  | cons c rest ih =>
      intro acc buf n h
      rw [asyncReadUntil] at h
      split at h
      · rename_i m heq
        injection h with h
        injection h with h1 h2
        subst h1
        exact ⟨rest.flatten, by simp [List.flatten_cons, List.append_assoc]⟩
      · obtain ⟨t, ht⟩ := ih (acc ++ c) buf n h
        exact ⟨t, by rw [ht]; simp [List.flatten_cons, List.append_assoc]⟩

/-! Claim theorems. -/

/-- C1: the claim states that `start()` runs the event-processing facility on
which the listener's accepts and the sessions' callbacks are scheduled. In
the code this fails: the `run ()` call at line 61 resolves to the local
`io_service` declared at line 51, while the acceptor and the per-connection
sockets are bound to the member `io_service`, so accept completions and
session callbacks are scheduled on a facility that `start()` never runs.
This theorem evaluates the embedding of the name resolution: the facility
`start` runs differs from the facility the acceptor and the sockets use. -/
theorem C1_start_runs_wrong_facility :
    runFacilityOfStart = Facility.localInStart ∧
    acceptorFacility = Facility.member ∧
    sessionSocketFacility = Facility.member ∧
    ¬ acceptorFacility = runFacilityOfStart ∧
    ¬ sessionSocketFacility = runFacilityOfStart := by
  refine ⟨rfl, rfl, rfl, ?_, ?_⟩ <;> decide

/-- C3: the claim states that while an asynchronous reply write is in flight,
the socket and the reply bytes remain alive, owned by the chain of
continuations, until the write completion callback runs. In the code this
fails: the read completion lambda (line 92) does capture the socket, buffer
and timer shared pointers, but the write completion lambda (line 113)
captures only `this`, and the `async_write` buffer argument (line 112) merely
points into the local `reply` string without owning it — so once the read
callback returns, nothing in the pending write chain keeps the socket, the
buffer or the reply bytes alive. -/
theorem C3_write_chain_drops_ownership :
    Resource.socketRes ∈ readCallbackCaptures ∧
    Resource.replyRes ∈ asyncWriteBufferRefs ∧
    Resource.socketRes ∉ writeCallbackCaptures ∧
    Resource.replyRes ∉ writeCallbackCaptures ∧
    Resource.bufferRes ∉ writeCallbackCaptures ∧
    socketHeldAfterReadCallback = false := by
  refine ⟨?_, ?_, ?_, ?_, ?_, ?_⟩ <;> decide

/-- C2 counterexample: the stream consisting of the single chunk
"A\r\n\r\nB" contains exactly one occurrence of the delimiter, yet the
handler is invoked with all six bytes (including the byte 66 = 'B' that
follows the delimiter) and length 6, not with the five bytes up to and
including the delimiter and length 5 — `processIncomingData` passes
`buffer->size ()` to the handler, and `async_read_until` leaves in the
buffer whatever arrived beyond the delimiter in the same chunk. -/
theorem C2_counterexample :
    delimOccurrences [65, 13, 10, 13, 10, 66] = 1 ∧
    Act.invokeHandler [65, 13, 10, 13, 10, 66] 6 ∈
      processIncomingDataTrace 0 okHandler
        ⟨[[65, 13, 10, 13, 10, 66]], false, true⟩ ∧
    Act.invokeHandler [65, 13, 10, 13, 10] 5 ∉
      processIncomingDataTrace 0 okHandler
        ⟨[[65, 13, 10, 13, 10, 66]], false, true⟩ := by
  refine ⟨?_, ?_, ?_⟩ <;> decide

/-- C4 counterexample: on an accept completion carrying the
operation-aborted code, the handler has already called `accept ()` again at
line 71 before the error check at lines 73-77 runs, so a re-arm does happen,
contrary to the claim that the loop does not re-arm another accept. -/
theorem C4_counterexample :
    AcceptAction.rearm ∈
      acceptCallbackActions ErrorCode.operationAborted := by decide

/-- C4 (amended): when an asynchronous accept completes with the
operation-aborted code, no connection session is started and nothing else
happens — but the next accept has already been re-armed, because the
`accept ()` call at line 71 precedes the error check unconditionally. -/
theorem C4_aborted_no_session_but_rearmed :
    acceptCallbackActions ErrorCode.operationAborted =
      [AcceptAction.rearm] := by decide

/-- C5 counterexample: on an accept completion carrying an error other than
operation-aborted (here the platform code 111), a connection session IS
started on the errored socket: the inner `if` at lines 75-76 returns early
only for operation-aborted, and every other error falls through to the
`processIncomingData (socket)` call at line 79. -/
theorem C5_counterexample :
    AcceptAction.startSession ∈
      acceptCallbackActions (ErrorCode.other 111) := by decide

/-- C5 (amended): when an asynchronous accept completes with any error other
than operation-aborted, the already re-armed accept keeps the loop running
and the error is not propagated beyond this attempt, but the attempt is not
dropped: a connection session is started on the errored socket, because only
the operation-aborted code returns early. -/
theorem C5_other_error_still_starts_session (ec : ErrorCode)
    (h1 : ec ≠ ErrorCode.ok) (h2 : ec ≠ ErrorCode.operationAborted) :
    acceptCallbackActions ec =
      [AcceptAction.rearm, AcceptAction.startSession] := by
  unfold acceptCallbackActions
  rw [if_pos h1, if_neg h2]

/-- C5 witness: the amended claim evaluated at the concrete error code 111. -/
theorem C5_witness :
    acceptCallbackActions (ErrorCode.other 111) =
      [AcceptAction.rearm, AcceptAction.startSession] :=
  C5_other_error_still_starts_session (ErrorCode.other 111)
    (by decide) (by decide)

/-- C8: the claim states that on an interrupt/quit signal the server logs a
termination message, stops the event-processing facility and cancels the
pending accept, this being the only shutdown path. The code's handler
(lines 54-59) does log the message and cancel the acceptor, and no `stop`
member exists; but it calls `io_service.reset ()` — which does not stop a
running facility, it only clears the stopped flag for a later `run` — and
never calls `stop ()` on any facility; moreover the signal wait itself is
registered on the local facility of line 51, not on the member facility the
sessions use. -/
theorem C8_signal_handler_resets_not_stops :
    ShutdownAction.logTermination ∈ signalHandlerActions ∧
    ShutdownAction.cancelAcceptor ∈ signalHandlerActions ∧
    ShutdownAction.resetFacility Facility.member ∈ signalHandlerActions ∧
    (∀ f, ShutdownAction.stopFacility f ∉ signalHandlerActions) ∧
    signalFacility = Facility.localInStart ∧
    "stop" ∉ definedMemberFunctions := by
  refine ⟨by decide, by decide, by decide, ?_, rfl, by decide⟩
  intro f
  cases f <;> decide

/-- C8 witness: the no-stop conjunct applied at the member facility. -/
theorem C8_witness :
    ShutdownAction.stopFacility Facility.member ∉ signalHandlerActions :=
  C8_signal_handler_resets_not_stops.2.2.2.1 Facility.member

/-- C2 (amended): for every connection whose read completes (the delimiter
arrived), the handler is invoked with the FULL accumulated buffer contents
and with the full buffer length: the buffer is a prefix of the incoming byte
stream, its first `n` bytes end with the delimiter where `n` is the position
one past the first delimiter occurrence (the `bytes_transferred` of the
read), `4 ≤ n ≤ buffer size`, and the length passed to the handler is the
buffer size — which counts the delimiter, but also counts any bytes that
arrived after the delimiter inside the same chunk. -/
theorem C2_handler_gets_full_buffer
    (rt : Int) (h : List Nat → Nat → List Nat) (chunks : List (List Nat))
    (wOk : Bool) (buf : List Nat) (n : Nat)
    (hread : asyncReadUntil chunks [] = some (buf, n)) :
    Act.invokeHandler buf buf.length ∈
      processIncomingDataTrace rt h ⟨chunks, false, wOk⟩ ∧
    findDelimEnd buf = some n ∧
    4 ≤ n ∧ n ≤ buf.length ∧
    (buf.drop (n - 4)).take 4 = delim ∧
    ∃ t, buf ++ t = chunks.flatten := by
  have hfd : findDelimEnd buf = some n := asyncReadUntil_findDelim _ _ _ _ hread
  obtain ⟨h4, hlen, hdrop⟩ := findDelimEnd_bounds buf n hfd
  refine ⟨?_, hfd, h4, hlen, hdrop, ?_⟩
  · by_cases hrt : rt > 0 <;>
      by_cases hrep : h buf buf.length = [] <;>
        simp [processIncomingDataTrace, readCallback, timerExpiry, hrt, hrep,
          hread]
  · simpa using asyncReadUntil_consumes chunks [] buf n hread

/-- C2 witness: the amended claim evaluated on the single chunk
"A\r\n\r\nB": the handler is invoked with all six bytes and length 6. -/
theorem C2_witness :
    Act.invokeHandler [65, 13, 10, 13, 10, 66] 6 ∈
      processIncomingDataTrace 0 okHandler
        ⟨[[65, 13, 10, 13, 10, 66]], false, true⟩ :=
  (C2_handler_gets_full_buffer 0 okHandler [[65, 13, 10, 13, 10, 66]] true
    [65, 13, 10, 13, 10, 66] 5 (by decide)).1

/-- C6: with a positive `read_timeout`, if the deadline elapses before the
delimiter arrives then the timer expiry handler shuts the socket down in
both directions and closes it, the handler is never invoked for that
connection, and the session takes its error path (the read completes with an
error, which is logged before the early return); if instead the read
completes first, the read callback cancels the armed timer and the timer's
scheduled action — invoked with the aborted code — is a no-op. -/
theorem C6_timeout_closes_socket_never_invokes_handler
    (rt : Int) (h : List Nat → Nat → List Nat) (env : SessionEnv)
    (hrt : rt > 0) :
    (env.timedOut = true →
      Act.shutdownBoth ∈ processIncomingDataTrace rt h env ∧
      Act.closeSocket ∈ processIncomingDataTrace rt h env ∧
      (∀ b l, Act.invokeHandler b l ∉ processIncomingDataTrace rt h env) ∧
      Act.logReadError ∈ processIncomingDataTrace rt h env) ∧
    (env.timedOut = false →
      ∀ buf n, asyncReadUntil env.chunks [] = some (buf, n) →
        Act.cancelTimer ∈ processIncomingDataTrace rt h env ∧
        timerExpiry true = []) := by
  constructor
  · intro hto
    refine ⟨?_, ?_, ?_, ?_⟩ <;>
      simp [processIncomingDataTrace, readCallback, timerExpiry, hrt, hto]
  · intro hto buf n hread
    refine ⟨?_, rfl⟩
    by_cases hrep : h buf buf.length = [] <;>
      simp [processIncomingDataTrace, readCallback, timerExpiry, hrt, hto,
        hread, hrep]

/-- C6 witness: timeout of 2 seconds elapsing on a silent connection — the
socket is shut down in both directions. -/
theorem C6_witness :
    Act.shutdownBoth ∈
      processIncomingDataTrace 2 okHandler ⟨[], true, true⟩ :=
  ((C6_timeout_closes_socket_never_invokes_handler 2 okHandler
      ⟨[], true, true⟩ (by decide)).1 rfl).1

/-- C7: after a successful read, a non-empty handler reply is written to the
socket exactly once and byte-exactly (the `async_write` at line 112 is
issued with precisely `reply.c_str ()` and `reply.size ()`, no framing
added); an empty reply issues no write at all; and in both cases the session
then ends with the connection closed — once the read callback returns, no
continuation of the session retains the socket, so its destructor closes
it. -/
theorem C7_reply_written_byte_exact_once
    (rt : Int) (h : List Nat → Nat → List Nat) (env : SessionEnv)
    (buf : List Nat) (n : Nat)
    (hto : env.timedOut = false)
    (hread : asyncReadUntil env.chunks [] = some (buf, n)) :
    (h buf buf.length ≠ [] →
      Act.startWrite (h buf buf.length) ∈ processIncomingDataTrace rt h env ∧
      (processIncomingDataTrace rt h env).countP isStartWriteAct = 1) ∧
    (h buf buf.length = [] →
      (processIncomingDataTrace rt h env).countP isStartWriteAct = 0) ∧
    socketHeldAfterReadCallback = false := by
  refine ⟨fun hrep => ?_, fun hrep => ?_, by decide⟩
  · cases hwk : env.writeOk <;>
      by_cases hrt : rt > 0 <;>
        simp [processIncomingDataTrace, readCallback, timerExpiry, hrt, hto,
          hread, hrep, hwk, isStartWriteAct, List.countP_cons,
          List.countP_append]
  · cases hwk : env.writeOk <;>
      by_cases hrt : rt > 0 <;>
        simp [processIncomingDataTrace, readCallback, timerExpiry, hrt, hto,
          hread, hrep, hwk, isStartWriteAct, List.countP_cons,
          List.countP_append]

/-- C7 witness: a request "\r\n\r\n" with the "OK" handler — the two reply
bytes are written. -/
theorem C7_witness :
    Act.startWrite [79, 75] ∈
      processIncomingDataTrace 0 okHandler
        ⟨[[13, 10, 13, 10]], false, true⟩ :=
  ((C7_reply_written_byte_exact_once 0 okHandler
      ⟨[[13, 10, 13, 10]], false, true⟩ [13, 10, 13, 10] 4 rfl
      (by decide)).1 (by decide)).1

/-- C9: in every possible environment — timeout or not, delimiter arriving
or not, write succeeding or not, any handler — the session's trace starts
exactly one asynchronous read, starts at most one asynchronous write, and
never issues a write before the read has completed: there is at most one
in-flight read and at most one in-flight write, and the two are never
concurrent on the socket. -/
theorem C9_one_read_one_write_never_concurrent
    (rt : Int) (h : List Nat → Nat → List Nat) (env : SessionEnv) :
    (processIncomingDataTrace rt h env).countP isStartReadAct = 1 ∧
    (processIncomingDataTrace rt h env).countP isStartWriteAct ≤ 1 ∧
    writesAfterReadDone (processIncomingDataTrace rt h env) = true := by
  by_cases hrt : rt > 0 <;> cases hto : env.timedOut
  case pos.true =>
    refine ⟨?_, ?_, ?_⟩ <;>
      simp [processIncomingDataTrace, readCallback, timerExpiry, hrt, hto,
        isStartReadAct, isStartWriteAct, writesAfterReadDone,
        List.countP_cons, List.countP_append]
  all_goals
    cases hread : asyncReadUntil env.chunks [] with
    | none =>
        refine ⟨?_, ?_, ?_⟩ <;>
          simp [processIncomingDataTrace, readCallback, timerExpiry, hrt,
            hto, hread, isStartReadAct, isStartWriteAct,
            writesAfterReadDone, List.countP_cons, List.countP_append]
    | some p =>
        obtain ⟨buf, n⟩ := p
        by_cases hrep : h buf buf.length = [] <;>
          cases hwk : env.writeOk <;>
            refine ⟨?_, ?_, ?_⟩ <;>
              simp [processIncomingDataTrace, readCallback, timerExpiry,
                hrt, hto, hread, hrep, hwk, isStartReadAct, isStartWriteAct,
                writesAfterReadDone, List.countP_cons, List.countP_append]

/-- C10: the read completion callback dereferences the timer pointer
(`timer->cancel ()`, line 95) exactly under the condition
`read_timeout > 0` (line 94), which is the same condition under which
`set_timeout_on_socket` assigned the pointer before the read was started
(lines 87-88); hence the timer is dereferenced only when it is non-null,
and more generally a `cancelTimer` step can only appear in a session trace
when the timer was actually created. -/
theorem C10_timer_deref_guarded
    (rt : Int) (h : List Nat → Nat → List Nat) (env : SessionEnv) :
    (readCallbackDerefsTimer rt = true ↔ (sessionTimer rt).isSome = true) ∧
    (Act.cancelTimer ∈ processIncomingDataTrace rt h env →
      (sessionTimer rt).isSome = true) := by
  by_cases hrt : rt > 0
  · exact ⟨by simp [readCallbackDerefsTimer, sessionTimer, hrt],
      fun _ => by simp [sessionTimer, hrt]⟩
  · constructor
    · simp [readCallbackDerefsTimer, sessionTimer, hrt]
    · intro hmem
      exfalso
      cases hread : asyncReadUntil env.chunks [] with
      | none =>
          simp [processIncomingDataTrace, readCallback, timerExpiry, hrt,
            hread] at hmem
      | some p =>
          obtain ⟨buf, n⟩ := p
          by_cases hrep : h buf buf.length = [] <;>
            cases hwk : env.writeOk <;>
              simp [processIncomingDataTrace, readCallback, timerExpiry,
                hrt, hread, hrep, hwk] at hmem

/-- C10 witness: with a one-second timeout the timer pointer is set, as the
guarded dereference requires. -/
theorem C10_witness : (sessionTimer 1).isSome = true :=
  (C10_timer_deref_guarded 1 okHandler
      ⟨[[13, 10, 13, 10]], false, true⟩).1.mp (by decide)
